import Mathlib

/-!
Shallow embedding of the `webhook-proxy` repository (Netlify function
`docker-webhook`): payload validator, service mapper, environment detector,
payload transformer, configuration loading/validation, GitHub dispatch client,
and the HTTP handler that composes them.  Console logging and wall-clock
timing (`processing_time_ms`) are side effects outside the embedding and are
omitted; everything else follows the TypeScript sources.
-/

/-- JSValue models the dynamically typed values that can appear in a parsed
JSON webhook body (the TypeScript code receives the body as `any`). -/
inductive JSValue where
  | vStr (s : String)
  | vNum (n : Int)
  | vBool (b : Bool)
  | vNull
deriving DecidableEq, Repr

/-- JavaScript truthiness of an optional field value; a missing field
(`none`, i.e. `undefined`) is falsy, as are `""`, `0`, `false` and `null`. -/
def truthy : Option JSValue → Bool
  | none => false
  | some (.vStr s) => s ≠ ""
  | some (.vNum n) => n ≠ 0
  | some (.vBool b) => b
  | some .vNull => false

/-- Whether a value is of string type (models a `typeof v === "string"` test). -/
def isStringVal : JSValue → Bool
  | .vStr _ => true
  | _ => false

/-- Template-literal rendering of a value (models `${v}` interpolation). -/
def jsvalToString : JSValue → String
  | .vStr s => s
  | .vNum n => toString n
  | .vBool b => if b then "true" else "false"
  | .vNull => "null"

/-- Template-literal rendering of an optional value; a missing field
interpolates as the string "undefined", as in JavaScript. -/
def jsvalOptToString : Option JSValue → String
  | some v => jsvalToString v
  | none => "undefined"

/-- Strict-equality membership of a dynamic value in a string array
(models `stringArray.includes(v)`, which uses SameValueZero comparison,
so a non-string value is never a member). -/
def includesVal (xs : List String) : Option JSValue → Bool
  | some (.vStr s) => xs.contains s
  | _ => false

/-- JavaScript `a || b` for an optional environment-variable string `a`
with string default `b`: the default is taken when `a` is undefined or empty. -/
def jsOr (a : Option String) (b : String) : String :=
  match a with
  | some s => if s = "" then b else s
  | none => b

/-- Characters removed by JavaScript `String.prototype.trim` (WhiteSpace and
LineTerminator code points). -/
def isJSWhitespace (c : Char) : Bool :=
  c.val = 9 || c.val = 10 || c.val = 11 || c.val = 12 || c.val = 13 ||
  c.val = 32 || c.val = 160 || c.val = 0x1680 ||
  (0x2000 ≤ c.val && c.val ≤ 0x200A) || c.val = 0x2028 || c.val = 0x2029 ||
  c.val = 0x202F || c.val = 0x205F || c.val = 0x3000 || c.val = 0xFEFF

/-- Model of `String.prototype.trim`: drop whitespace from both ends. -/
def jsTrim (s : String) : String :=
  ⟨((s.data.dropWhile isJSWhitespace).reverse.dropWhile isJSWhitespace).reverse⟩

/-- Consume one-or-more leading decimal digits and return the remainder
(matching a `\d+` atom followed by a character that is not a digit). -/
def parseDigits1 : List Char → Option (List Char)
  | [] => none
  | c :: cs => if c.isDigit then some (cs.dropWhile Char.isDigit) else none

/-- Anchored match of `v\d+\.\d+\.\d+` followed exactly by the given literal
tail; the regex atoms `\d+` and `\.` are disjoint, so the greedy backtracking
semantics coincides with this deterministic matcher. -/
def anchoredSemver (tail : List Char) (s : String) : Bool :=
  match s.data with
  | 'v' :: r0 =>
    match parseDigits1 r0 with
    | none => false
    | some r1 =>
      match r1 with
      | '.' :: r2 =>
        match parseDigits1 r2 with
        | none => false
        | some r3 =>
          match r3 with
          | '.' :: r4 =>
            match parseDigits1 r4 with
            | none => false
            | some r5 => r5 == tail
          | _ => false
      | _ => false
  | _ => false

/-- Production pattern from environment-detector.ts: /^v\d+\.\d+\.\d+$/ -/
def PRODUCTION_PATTERN (s : String) : Bool := anchoredSemver [] s

/-- Staging pattern from environment-detector.ts: /^v\d+\.\d+\.\d+-stg$/ -/
def STAGING_STG_PATTERN (s : String) : Bool := anchoredSemver ['-', 's', 't', 'g'] s

/-- Staging pattern from environment-detector.ts: /^v\d+\.\d+\.\d+-dev$/ -/
def STAGING_DEV_PATTERN (s : String) : Bool := anchoredSemver ['-', 'd', 'e', 'v'] s

/-- Environment enumeration from environment-detector.ts. -/
inductive Environment where
  | production
  | staging
deriving DecidableEq, Repr

/-- detectEnvironment from environment-detector.ts.  The input is typed as a
string, so the source's `typeof tag !== "string"` guard cannot fire in the
embedding; the `!tag` guard fires exactly for the empty string. -/
def detectEnvironment (tag : String) : Environment :=
  if tag = "" then .staging
  else
    let trimmedTag := jsTrim tag
    if PRODUCTION_PATTERN trimmedTag then .production
    else if STAGING_STG_PATTERN trimmedTag || STAGING_DEV_PATTERN trimmedTag then .staging
    else .staging

/-- SUPPORTED_REPOSITORIES from validator.ts. -/
def SUPPORTED_REPOSITORIES : List String :=
  [ "estatemanner/est-webapp",
    "estatemanner/est-server",
    "estatemanner/est-pricing-server",
    "estatemanner/est-landing",
    "estatemanner/est-mdp-collector",
    "estatemanner/est-mdp-collector-fe" ]

/-- Untrusted `repository` sub-object of the parsed webhook body; every field
may be absent or of a wrong type. -/
structure RawRepository where
  repo_name : Option JSValue
  owner : Option JSValue
deriving DecidableEq, Repr

/-- Untrusted `push_data` sub-object of the parsed webhook body. -/
structure RawPushData where
  tag : Option JSValue
  pusher : Option JSValue
deriving DecidableEq, Repr

/-- Untrusted parsed webhook body as received by validateDockerPayload
(the TypeScript parameter has type `any`; optional-chaining accesses such as
`payload.repository?.repo_name` become `Option.bind`). -/
structure RawPayload where
  repository : Option RawRepository
  push_data : Option RawPushData
deriving DecidableEq, Repr

/-- Error list accumulated by validateDockerPayload, in source push order. -/
def validationErrors (payload : RawPayload) : List String :=
  (if !truthy (payload.repository.bind RawRepository.repo_name) then
    ["Missing repository.repo_name"] else []) ++
  (if !truthy (payload.repository.bind RawRepository.owner) then
    ["Missing repository.owner"] else []) ++
  (if !truthy (payload.push_data.bind RawPushData.tag) then
    ["Missing push_data.tag"] else []) ++
  (if !truthy (payload.push_data.bind RawPushData.pusher) then
    ["Missing push_data.pusher"] else []) ++
  (if truthy (payload.repository.bind RawRepository.repo_name) &&
      !includesVal SUPPORTED_REPOSITORIES (payload.repository.bind RawRepository.repo_name) then
    ["Unsupported repository: " ++
      jsvalOptToString (payload.repository.bind RawRepository.repo_name) ++
      ". Supported: " ++ String.intercalate ", " SUPPORTED_REPOSITORIES] else []) ++
  (if truthy (payload.push_data.bind RawPushData.tag) &&
      !(payload.push_data.bind RawPushData.tag).all isStringVal then
    ["push_data.tag must be a string"] else []) ++
  (if truthy (payload.push_data.bind RawPushData.pusher) &&
      !(payload.push_data.bind RawPushData.pusher).all isStringVal then
    ["push_data.pusher must be a string"] else [])

/-- ValidationResult from types.ts: `errors` is undefined when empty. -/
structure ValidationResult where
  valid : Bool
  errors : Option (List String)
deriving DecidableEq, Repr

/-- validateDockerPayload from validator.ts. -/
def validateDockerPayload (payload : RawPayload) : ValidationResult :=
  let errors := validationErrors payload
  { valid := errors.length == 0,
    errors := if errors.length > 0 then some errors else none }

/-- SERVICE_MAP from service-mapper.ts, as an association list preserving the
object literal's own-property insertion order. -/
def SERVICE_MAP : List (String × String) :=
  [ ("duylvhz/est-webapp", "webapp"),
    ("duylvhz/est-landing", "landing"),
    ("duylvhz/est-server", "server"),
    ("duylvhz/est-pricing-server", "pricing") ]

/-- Message of the error thrown by mapRepositoryToService: it interpolates the
offending repository name and `Object.keys(SERVICE_MAP).join(", ")`. -/
def unknownRepoMsg (repoName : String) : String :=
  "Unknown repository: " ++ repoName ++ ". Supported repositories: " ++
    String.intercalate ", " (SERVICE_MAP.map Prod.fst)

/-- mapRepositoryToService from service-mapper.ts; the thrown `Error` becomes
the `Except.error` case.  The source throws when `SERVICE_MAP[repoName]` is
falsy, i.e. when the key is absent or its value is the empty string. -/
def mapRepositoryToService (repoName : String) : Except String String :=
  match SERVICE_MAP.lookup repoName with
  | some serviceName =>
      if serviceName = "" then .error (unknownRepoMsg repoName)
      else .ok serviceName
  | none => .error (unknownRepoMsg repoName)

/-- Typed DockerHubPayload.repository from types.ts. -/
structure DHRepository where
  repo_name : String
  owner : String
deriving DecidableEq, Repr

/-- Typed DockerHubPayload.push_data from types.ts (the optional `pushed_at`
field is unused by every component and omitted). -/
structure DHPushData where
  tag : String
  pusher : String
deriving DecidableEq, Repr

/-- Typed DockerHubPayload from types.ts. -/
structure DockerHubPayload where
  repository : DHRepository
  push_data : DHPushData
deriving DecidableEq, Repr

/-- GitHubDispatchPayload.client_payload.repository from types.ts. -/
structure GHRepository where
  repo_name : String
deriving DecidableEq, Repr

/-- GitHubDispatchPayload.client_payload.push_data from types.ts. -/
structure GHPushData where
  tag : String
  pusher : String
deriving DecidableEq, Repr

/-- GitHubDispatchPayload.client_payload from types.ts; the transformer always
sets `environment`, so it is non-optional here. -/
structure GHClientPayload where
  repository : GHRepository
  push_data : GHPushData
  environment : Environment
deriving DecidableEq, Repr

/-- GitHubDispatchPayload from types.ts. -/
structure GitHubDispatchPayload where
  event_type : String
  client_payload : GHClientPayload
deriving DecidableEq, Repr

/-- transformPayload from transformer.ts.  The service-name lookup can throw
(propagated as `Except.error`, wrapped by the catch block's message); note
that the source binds `serviceName` but only logs it — the outbound
`client_payload.repository.repo_name` is the ORIGINAL
`dockerPayload.repository.repo_name`, copied verbatim. -/
def transformPayload (dockerPayload : DockerHubPayload) : Except String GitHubDispatchPayload :=
  match mapRepositoryToService dockerPayload.repository.repo_name with
  | .error e => .error ("Failed to transform payload: " ++ e)
  | .ok _serviceName =>
      .ok { event_type := "docker-hub-webhook",
            client_payload :=
              { repository := { repo_name := dockerPayload.repository.repo_name },
                push_data := { tag := dockerPayload.push_data.tag,
                               pusher := dockerPayload.push_data.pusher },
                environment := detectEnvironment dockerPayload.push_data.tag } }

/-- Environment variables read by config.ts and github.ts; `none` models an
unset variable. -/
structure Env where
  GITHUB_TOKEN : Option String
  GITHUB_OWNER : Option String
  GITHUB_REPO : Option String
  LOG_LEVEL : Option String
  ENABLE_REQUEST_LOGGING : Option String
  ENABLE_PERFORMANCE_LOGGING : Option String
  MAX_PAYLOAD_SIZE : Option String
  WEBHOOK_TIMEOUT_MS : Option String
deriving DecidableEq, Repr

/-- Unsigned decimal digit run for jsParseInt. -/
def parseUnsigned (cs : List Char) : Option Nat :=
  let ds := cs.takeWhile Char.isDigit
  if ds.isEmpty then none
  else some (ds.foldl (fun acc c => acc * 10 + (c.toNat - '0'.toNat)) 0)

/-- Model of JavaScript `parseInt(s)` on decimal input: skip leading
whitespace, read an optional sign and then leading decimal digits; `none`
models NaN (no digits).  Radix auto-detection for "0x" literals is not
modelled — the configuration strings are decimal. -/
def jsParseInt (s : String) : Option Int :=
  let cs := s.data.dropWhile isJSWhitespace
  match cs with
  | '-' :: rest => (parseUnsigned rest).map (fun n => -(n : Int))
  | '+' :: rest => (parseUnsigned rest).map (fun n => (n : Int))
  | _ => (parseUnsigned cs).map (fun n => (n : Int))

/-- Config.github from config.ts. -/
structure GitHubSettings where
  token : String
  owner : String
  repo : String
deriving DecidableEq, Repr

/-- Config.logging from config.ts (`level` is a raw string: the TypeScript
`as LogLevel` cast performs no runtime check). -/
structure LoggingSettings where
  level : String
  enableRequestLogging : Bool
  enablePerformanceLogging : Bool
deriving DecidableEq, Repr

/-- Config.webhook from config.ts; `none` models a NaN from parseInt. -/
structure WebhookSettings where
  maxPayloadSize : Option Int
  timeoutMs : Option Int
deriving DecidableEq, Repr

/-- Config from config.ts. -/
structure Config where
  github : GitHubSettings
  logging : LoggingSettings
  webhook : WebhookSettings
deriving DecidableEq, Repr

/-- getConfig from config.ts. -/
def getConfig (env : Env) : Config :=
  { github :=
      { token := jsOr env.GITHUB_TOKEN "",
        owner := jsOr env.GITHUB_OWNER "Estatemanner",
        repo := jsOr env.GITHUB_REPO "cadastral-deploy" },
    logging :=
      { level := jsOr env.LOG_LEVEL "info",
        enableRequestLogging := env.ENABLE_REQUEST_LOGGING == some "true",
        enablePerformanceLogging := env.ENABLE_PERFORMANCE_LOGGING != some "false" },
    webhook :=
      { maxPayloadSize := jsParseInt (jsOr env.MAX_PAYLOAD_SIZE "1048576"),
        timeoutMs := jsParseInt (jsOr env.WEBHOOK_TIMEOUT_MS "30000") } }

/-- JavaScript `n <= 0` where `n` may be NaN: every comparison with NaN is
false. -/
def jsLeZero : Option Int → Bool
  | some v => v ≤ 0
  | none => false

/-- Error list accumulated by validateConfig in config.ts, in push order. -/
def validateConfigErrors (cfg : Config) : List String :=
  (if cfg.github.token = "" then ["GitHub token is required (GITHUB_TOKEN)"] else []) ++
  (if cfg.github.owner = "" then ["GitHub owner is required (GITHUB_OWNER)"] else []) ++
  (if cfg.github.repo = "" then ["GitHub repository is required (GITHUB_REPO)"] else []) ++
  (if !(["debug", "info", "warn", "error"].contains cfg.logging.level) then
    ["Invalid log level: " ++ cfg.logging.level ++ ". Valid levels: debug, info, warn, error"]
   else []) ++
  (if jsLeZero cfg.webhook.maxPayloadSize then ["Max payload size must be greater than 0"] else []) ++
  (if jsLeZero cfg.webhook.timeoutMs then ["Webhook timeout must be greater than 0"] else [])

/-- Result record of validateConfig (here `errors` is always present). -/
structure ConfigValidation where
  valid : Bool
  errors : List String
deriving DecidableEq, Repr

/-- validateConfig from config.ts. -/
def validateConfig (cfg : Config) : ConfigValidation :=
  let errors := validateConfigErrors cfg
  { valid := errors.length == 0, errors := errors }

/-- Behavior of the upstream GitHub dispatch endpoint for the single fetch the
client performs: either a response with a status and body text, or a
transport-level failure whose thrown error carries a message. -/
inductive Upstream where
  | responds (status : Nat) (bodyText : String)
  | unreachable (message : String)
deriving DecidableEq, Repr

/-- sendToGitHub from github.ts, called as the handler calls it (no config
override, so `getGitHubConfig` resolves the token from the environment).
The result pairs the outcome (`Except.error` models the thrown error) with
the number of outbound network calls performed (0 or 1).  `response.ok` is
status 200..299.  The serialized payload is the request body; it does not
influence the modelled outcome. -/
def sendToGitHub (env : Env) (_payload : GitHubDispatchPayload) (upstream : Upstream) :
    Except String Bool × Nat :=
  let token := jsOr env.GITHUB_TOKEN ""
  if token = "" then
    (.error "GITHUB_TOKEN environment variable not configured", 0)
  else
    match upstream with
    | .responds status bodyText =>
        if 200 ≤ status ∧ status ≤ 299 then (.ok true, 1)
        else (.error ("GitHub API error: " ++ toString status ++ " - " ++ bodyText), 1)
    | .unreachable message => (.error message, 1)

/-- Outcome of `await req.json()` in the handler: a parse failure or a parsed
(untrusted) object body. -/
inductive ReqBody where
  | malformed
  | parsed (p : RawPayload)
deriving DecidableEq, Repr

/-- The parts of the incoming HTTP request the handler inspects. -/
structure HandlerRequest where
  method : String
  body : ReqBody
deriving DecidableEq, Repr

/-- JSON bodies produced by the handler (index.mts); the wall-clock
`processing_time_ms` field of the success and internal-error bodies is not
modelled. -/
inductive RespBody where
  | configError
  | methodNotAllowed
  | invalidJson
  | invalidPayload (details : List String)
  | success (message : String) (service : String) (environment : Environment)
  | internalError (message : String)
deriving DecidableEq, Repr

/-- HTTP response of the handler: status code and JSON body. -/
structure HttpResponse where
  status : Nat
  body : RespBody
deriving DecidableEq, Repr

/-- Transformation step as invoked by the handler: the parsed `any` body is
passed to transformPayload.  The handler only reaches this step after
validateDockerPayload succeeded, which forces repo_name, tag and pusher to be
non-empty strings, so extracting them with jsvalOptToString is exact there
(owner may be any truthy value; transformPayload never reads it). -/
def handlerTransform (p : RawPayload) : Except String GitHubDispatchPayload :=
  transformPayload
    { repository :=
        { repo_name := jsvalOptToString (p.repository.bind RawRepository.repo_name),
          owner := jsvalOptToString (p.repository.bind RawRepository.owner) },
      push_data :=
        { tag := jsvalOptToString (p.push_data.bind RawPushData.tag),
          pusher := jsvalOptToString (p.push_data.bind RawPushData.pusher) } }

/-- Dispatch stage of the handler: run sendToGitHub; a thrown error is caught
by the handler's outer catch and mapped to the 500 internal-error body with
the error's message, while success yields the 200 body whose `service` field
is `githubPayload.client_payload.repository.repo_name`. -/
def dispatchStage (env : Env) (githubPayload : GitHubDispatchPayload) (upstream : Upstream) :
    HttpResponse × Nat :=
  match sendToGitHub env githubPayload upstream with
  | (.error msg, calls) => (⟨500, .internalError msg⟩, calls)
  | (.ok _, calls) =>
      (⟨200, .success "Webhook processed successfully"
          githubPayload.client_payload.repository.repo_name
          githubPayload.client_payload.environment⟩, calls)

/-- The default export of index.mts: the webhook handler.  Stages in source
order: configuration validation, method gate, JSON body parse, payload
validation, transformation, dispatch.  A thrown transformation error is
caught by the outer catch and becomes a 500 internal-error response.  The
second component counts outbound network calls. -/
def handler (env : Env) (req : HandlerRequest) (upstream : Upstream) : HttpResponse × Nat :=
  let config := getConfig env
  let configValidation := validateConfig config
  if !configValidation.valid then
    (⟨500, .configError⟩, 0)
  else if req.method ≠ "POST" then
    (⟨405, .methodNotAllowed⟩, 0)
  else
    match req.body with
    | .malformed => (⟨400, .invalidJson⟩, 0)
    | .parsed dockerPayload =>
      let validation := validateDockerPayload dockerPayload
      if !validation.valid then
        (⟨400, .invalidPayload (validation.errors.getD [])⟩, 0)
      else
        match handlerTransform dockerPayload with
        | .error msg => (⟨500, .internalError msg⟩, 0)
        | .ok githubPayload => dispatchStage env githubPayload upstream

/-- Inbound body of the end-to-end scenario: repo estatemanner/est-webapp,
owner estatemanner, tag v1.0.0, pusher dev. -/
def scenarioPayload : RawPayload :=
  { repository := some { repo_name := some (.vStr "estatemanner/est-webapp"),
                         owner := some (.vStr "estatemanner") },
    push_data := some { tag := some (.vStr "v1.0.0"),
                        pusher := some (.vStr "dev") } }

/-- Environment with a credential configured and every other variable unset
(all defaults apply, and the configuration is valid). -/
def tokenOnlyEnv : Env :=
  { GITHUB_TOKEN := some "ghp-token", GITHUB_OWNER := none, GITHUB_REPO := none,
    LOG_LEVEL := none, ENABLE_REQUEST_LOGGING := none,
    ENABLE_PERFORMANCE_LOGGING := none, MAX_PAYLOAD_SIZE := none,
    WEBHOOK_TIMEOUT_MS := none }

/-- Environment with no variable set at all (in particular no credential). -/
def emptyEnv : Env :=
  { GITHUB_TOKEN := none, GITHUB_OWNER := none, GITHUB_REPO := none,
    LOG_LEVEL := none, ENABLE_REQUEST_LOGGING := none,
    ENABLE_PERFORMANCE_LOGGING := none, MAX_PAYLOAD_SIZE := none,
    WEBHOOK_TIMEOUT_MS := none }

/-- Typed payload whose repository IS a key of SERVICE_MAP, used to exercise
the successful branch of the transformer. -/
def mappedInput : DockerHubPayload :=
  { repository := { repo_name := "duylvhz/est-webapp", owner := "duylvhz" },
    push_data := { tag := "v1.0.0", pusher := "dev" } }

/-- Outbound payload used to exercise the dispatch stage in isolation. -/
def sampleDispatchPayload : GitHubDispatchPayload :=
  { event_type := "docker-hub-webhook",
    client_payload :=
      { repository := { repo_name := "duylvhz/est-webapp" },
        push_data := { tag := "v1.0.0", pusher := "dev" },
        environment := .production } }

/-- Every repository name on the validator allow-list is absent from
SERVICE_MAP, so the mapper rejects each of them (helper shared by the
analysis of the validated-payload pipeline). -/
theorem supported_repositories_unmapped :
    ∀ r ∈ SUPPORTED_REPOSITORIES, mapRepositoryToService r = .error (unknownRepoMsg r) := by
  intro r hr
  fin_cases hr <;> rfl

/-- C4: every string whose JS-trimmed value matches the anchored pattern
v&lt;digits&gt;.&lt;digits&gt;.&lt;digits&gt; exactly is classified as production
by detectEnvironment. -/
theorem detectEnvironment_production_of_pattern (tag : String)
    (h : PRODUCTION_PATTERN (jsTrim tag) = true) :
    detectEnvironment tag = .production := by
  have htag : tag ≠ "" := by
    intro he
    rw [he] at h
    exact absurd h (by decide)
  simp [detectEnvironment, htag, h]

/-- Witness for C4 at the concrete tag v1.0.0. -/
theorem detectEnvironment_production_of_pattern_witness :
    detectEnvironment "v1.0.0" = .production :=
  detectEnvironment_production_of_pattern "v1.0.0" (by decide)

/-- C5: detectEnvironment is total with range {production, staging}; every
input whose trimmed value does not match the production pattern is classified
staging (never an exception), including -stg and -dev suffixed semantic
versions and the spec examples latest, v1.0, staging and the empty string. -/
theorem detectEnvironment_staging_default :
    (∀ tag : String, PRODUCTION_PATTERN (jsTrim tag) = false →
        detectEnvironment tag = .staging) ∧
    (∀ tag : String,
        detectEnvironment tag = .production ∨ detectEnvironment tag = .staging) ∧
    detectEnvironment "v1.0.0-stg" = .staging ∧
    detectEnvironment "v2.1.3-dev" = .staging ∧
    detectEnvironment "latest" = .staging ∧
    detectEnvironment "v1.0" = .staging ∧
    detectEnvironment "staging" = .staging ∧
    detectEnvironment "" = .staging := by
  refine ⟨?_, ?_, by decide, by decide, by decide, by decide, by decide, by decide⟩
  · intro tag h
    by_cases htag : tag = ""
    · simp [detectEnvironment, htag]
    · simp [detectEnvironment, htag, h]
  · intro tag
    cases h : detectEnvironment tag
    · exact Or.inl rfl
    · exact Or.inr rfl

/-- Witness for C5 at the concrete tag latest. -/
theorem detectEnvironment_staging_default_witness :
    detectEnvironment "latest" = .staging :=
  detectEnvironment_staging_default.1 "latest" (by decide)

/-- C6: validateDockerPayload accumulates violations; whenever both
repository.repo_name and push_data.tag are missing (falsy), the returned
details list exists and has length at least 2. -/
theorem validateDockerPayload_accumulates (p : RawPayload)
    (h1 : truthy (p.repository.bind RawRepository.repo_name) = false)
    (h2 : truthy (p.push_data.bind RawPushData.tag) = false) :
    ∃ l, (validateDockerPayload p).errors = some l ∧ 2 ≤ l.length := by
  have hlen : 2 ≤ (validationErrors p).length := by
    unfold validationErrors
    rw [h1, h2]
    simp [List.length_append]
    omega
  refine ⟨validationErrors p, ?_, hlen⟩
  unfold validateDockerPayload
  simp only []
  rw [if_pos (by omega)]

/-- Witness for C6 at the fully empty payload. -/
theorem validateDockerPayload_accumulates_witness :
    ∃ l, (validateDockerPayload ⟨none, none⟩).errors = some l ∧ 2 ≤ l.length :=
  validateDockerPayload_accumulates ⟨none, none⟩ rfl rfl

/-- C7: mapRepositoryToService is a total inverse-lookup over SERVICE_MAP:
every key succeeds with its configured service name, and every non-key fails
with the error naming the offending value and listing the full supported
set. -/
theorem mapRepositoryToService_total_lookup :
    (∀ k v, (k, v) ∈ SERVICE_MAP → mapRepositoryToService k = .ok v) ∧
    (∀ s, s ∉ SERVICE_MAP.map Prod.fst →
        mapRepositoryToService s = .error (unknownRepoMsg s)) := by
  constructor
  · intro k v hkv
    simp only [SERVICE_MAP, List.mem_cons, List.not_mem_nil, or_false,
      Prod.mk.injEq] at hkv
    rcases hkv with ⟨hk, hv⟩ | ⟨hk, hv⟩ | ⟨hk, hv⟩ | ⟨hk, hv⟩ <;> subst hk <;> subst hv <;> rfl
  · intro s hs
    simp only [SERVICE_MAP, List.map_cons, List.map_nil, List.mem_cons,
      List.not_mem_nil, or_false, not_or] at hs
    obtain ⟨h1, h2, h3, h4⟩ := hs
    have hb1 : (s == "duylvhz/est-webapp") = false := beq_eq_false_iff_ne.mpr h1
    have hb2 : (s == "duylvhz/est-landing") = false := beq_eq_false_iff_ne.mpr h2
    have hb3 : (s == "duylvhz/est-server") = false := beq_eq_false_iff_ne.mpr h3
    have hb4 : (s == "duylvhz/est-pricing-server") = false := beq_eq_false_iff_ne.mpr h4
    simp [mapRepositoryToService, SERVICE_MAP, List.lookup, hb1, hb2, hb3, hb4]

/-- Witness for C7: one mapped key and one unmapped name. -/
theorem mapRepositoryToService_total_lookup_witness :
    mapRepositoryToService "duylvhz/est-webapp" = .ok "webapp" ∧
    mapRepositoryToService "other/repo" = .error (unknownRepoMsg "other/repo") :=
  ⟨mapRepositoryToService_total_lookup.1 "duylvhz/est-webapp" "webapp" (by decide),
   mapRepositoryToService_total_lookup.2 "other/repo" (by decide)⟩

/-- C1: the claim fails on the code — the validator allow-list is keyed by
the estatemanner namespace while SERVICE_MAP is keyed by the duylvhz
namespace, so a payload accepted by validateDockerPayload (here with
repo_name estatemanner/est-webapp) makes mapRepositoryToService throw instead
of succeed. -/
theorem validated_payload_mapping_throws :
    (validateDockerPayload scenarioPayload).valid = true ∧
    scenarioPayload.repository.bind RawRepository.repo_name =
      some (.vStr "estatemanner/est-webapp") ∧
    mapRepositoryToService "estatemanner/est-webapp" =
      .error (unknownRepoMsg "estatemanner/est-webapp") :=
  ⟨by decide, by decide, by rfl⟩

/-- C2: the end-to-end scenario fails on the code — the input passes
validation, but the transformer rethrows the mapper error for
estatemanner/est-webapp, so with a valid configuration and an upstream that
would answer 204 the handler responds 500 Internal server error and performs
no outbound call, instead of the claimed 200/production. -/
theorem scenario_handler_responds_500 :
    (validateDockerPayload scenarioPayload).valid = true ∧
    handler tokenOnlyEnv { method := "POST", body := .parsed scenarioPayload }
        (.responds 204 "") =
      (⟨500, .internalError
          ("Failed to transform payload: " ++ unknownRepoMsg "estatemanner/est-webapp")⟩, 0) :=
  ⟨by decide, by rfl⟩

/-- C3: the claim fails on the code — for an input whose repository IS mapped
(duylvhz/est-webapp, whose configured service name is webapp), transformPayload
copies the ORIGINAL repository identifier into
client_payload.repository.repo_name rather than the mapped service name,
while tag, pusher and the fixed event_type behave as claimed. -/
theorem transformPayload_keeps_original_repo_name :
    mapRepositoryToService "duylvhz/est-webapp" = .ok "webapp" ∧
    transformPayload mappedInput = .ok
      { event_type := "docker-hub-webhook",
        client_payload :=
          { repository := { repo_name := "duylvhz/est-webapp" },
            push_data := { tag := "v1.0.0", pusher := "dev" },
            environment := .production } } ∧
    ("duylvhz/est-webapp" : String) ≠ "webapp" :=
  ⟨by rfl, by rfl, by decide⟩

/-- C8: whenever the credential resolves to the empty string (GITHUB_TOKEN
unset or empty), the handler answers 500 Server configuration error for every
request, and the outbound-call count is 0 — the check precedes any network
call. -/
theorem handler_missing_token_config_error (env : Env) (req : HandlerRequest)
    (upstream : Upstream) (h : jsOr env.GITHUB_TOKEN "" = "") :
    handler env req upstream = (⟨500, .configError⟩, 0) := by
  have hvalid : (validateConfig (getConfig env)).valid = false := by
    simp [validateConfig, validateConfigErrors, getConfig, h]
  simp [handler, hvalid]

/-- Witness for C8: empty environment, POST with malformed body, upstream
that would answer 204. -/
theorem handler_missing_token_config_error_witness :
    handler emptyEnv { method := "POST", body := .malformed } (.responds 204 "") =
      (⟨500, .configError⟩, 0) :=
  handler_missing_token_config_error emptyEnv
    { method := "POST", body := .malformed } (.responds 204 "") rfl

/-- C9: for every upstream response with status outside 200..299 (and a
configured credential, so the call is actually made), sendToGitHub fails with
the error carrying the status code and the response body text, and the
handler dispatch stage maps that failure to a 500 Internal server error
response carrying the message. -/
theorem sendToGitHub_non2xx_rejected (env : Env) (gp : GitHubDispatchPayload)
    (status : Nat) (bodyText : String)
    (htok : jsOr env.GITHUB_TOKEN "" ≠ "")
    (hst : status < 200 ∨ 299 < status) :
    sendToGitHub env gp (.responds status bodyText) =
      (.error ("GitHub API error: " ++ toString status ++ " - " ++ bodyText), 1) ∧
    dispatchStage env gp (.responds status bodyText) =
      (⟨500, .internalError ("GitHub API error: " ++ toString status ++ " - " ++ bodyText)⟩, 1) := by
  have hc : ¬(200 ≤ status ∧ status ≤ 299) := by omega
  have hsend : sendToGitHub env gp (.responds status bodyText) =
      (.error ("GitHub API error: " ++ toString status ++ " - " ++ bodyText), 1) := by
    simp [sendToGitHub, htok, hc]
  exact ⟨hsend, by simp [dispatchStage, hsend]⟩

/-- Witness for C9 at a concrete 404 upstream rejection. -/
theorem sendToGitHub_non2xx_rejected_witness :
    sendToGitHub tokenOnlyEnv sampleDispatchPayload (.responds 404 "Not Found") =
      (.error ("GitHub API error: " ++ toString 404 ++ " - " ++ "Not Found"), 1) ∧
    dispatchStage tokenOnlyEnv sampleDispatchPayload (.responds 404 "Not Found") =
      (⟨500, .internalError ("GitHub API error: " ++ toString 404 ++ " - " ++ "Not Found")⟩, 1) :=
  sendToGitHub_non2xx_rejected tokenOnlyEnv sampleDispatchPayload 404 "Not Found"
    (by decide) (by decide)

/-- C10: configuration validation runs before the method gate and body
parsing — with an invalid configuration every request (any method, any body)
gets the 500 Server configuration error response with no outbound call; in
contrapositive, a 405 or 400 response is only reachable under a valid
configuration. -/
theorem config_gate_runs_first :
    (∀ (env : Env) (req : HandlerRequest) (upstream : Upstream),
        (validateConfig (getConfig env)).valid = false →
        handler env req upstream = (⟨500, .configError⟩, 0)) ∧
    (∀ (env : Env) (req : HandlerRequest) (upstream : Upstream),
        (handler env req upstream).1.status = 405 ∨
          (handler env req upstream).1.status = 400 →
        (validateConfig (getConfig env)).valid = true) := by
  have hmain : ∀ (env : Env) (req : HandlerRequest) (upstream : Upstream),
      (validateConfig (getConfig env)).valid = false →
      handler env req upstream = (⟨500, .configError⟩, 0) := by
    intro env req upstream h
    simp [handler, h]
  refine ⟨hmain, ?_⟩
  intro env req upstream hst
  by_contra hv
  have hfalse : (validateConfig (getConfig env)).valid = false := by
    cases h2 : (validateConfig (getConfig env)).valid
    · rfl
    · exact absurd h2 hv
  rw [hmain env req upstream hfalse] at hst
  simp at hst

/-- Witness for C10: unset credential, GET request with malformed body. -/
theorem config_gate_runs_first_witness :
    handler emptyEnv { method := "GET", body := .malformed } (.responds 204 "") =
      (⟨500, .configError⟩, 0) :=
  config_gate_runs_first.1 emptyEnv
    { method := "GET", body := .malformed } (.responds 204 "") (by decide)
